import Mathlib

/-!
Shallow embedding of the calculation engine of the Factory Energy Retrofit
Simulator (src/app.py).  Python floats are modelled as rationals; the
arithmetic of the engine is exact rational arithmetic on the modelled
inputs.  Each definition mirrors one piece of the source:

* `EFFICIENCY_CURVES`, `MOTOR_COSTS`, `vfd_savings_curve` : the constant
  tables of class `MotorSystem` (app.py lines 125-137 and 159-164).
* `interpSegments` / `interpolateCurve` : the interpolation loop plus the
  clamp fallback shared by `get_efficiency` and `calculate_vfd_savings`
  (lines 147-153 and 170-177).
* `get_efficiency`, `calculate_vfd_savings`, `calculate_lighting_energy` :
  the static methods of `MotorSystem` and `LightingSystem`.
* `motorUpgradeEval` / `evalMotorUpgrade`, `evalVfd`, `evalLighting`,
  `runSimulation` : the simulation loop of tab 3 (lines 378-447).
* `total_energy_savings`, `total_cost_savings`, `co2_reduction` : the
  aggregate metrics (lines 453-474).
* `mkRecommendation`, `buildRecommendations`, `rankRecommendations` : the
  recommendation build, filter and stable descending sort of tab 4
  (lines 592-634).
-/

namespace Retrofit

/-- A piecewise-linear curve: the (x, y) anchor points of a Python dict,
in insertion order. -/
abbrev Curve := List (ℚ × ℚ)

/-- Curve `MotorSystem.EFFICIENCY_CURVES[IE1]` (app.py line 126). -/
def ie1Curve : Curve := [(1/4, 78/100), (1/2, 85/100), (3/4, 88/100), (1, 89/100)]

/-- Curve `MotorSystem.EFFICIENCY_CURVES[IE2]` (app.py line 127). -/
def ie2Curve : Curve := [(1/4, 82/100), (1/2, 88/100), (3/4, 90/100), (1, 91/100)]

/-- Curve `MotorSystem.EFFICIENCY_CURVES[IE3]` (app.py line 128). -/
def ie3Curve : Curve := [(1/4, 85/100), (1/2, 90/100), (3/4, 92/100), (1, 93/100)]

/-- Curve `MotorSystem.EFFICIENCY_CURVES[IE4]` (app.py line 129). -/
def ie4Curve : Curve := [(1/4, 88/100), (1/2, 93/100), (3/4, 95/100), (1, 96/100)]

/-- Table `MotorSystem.EFFICIENCY_CURVES` as an association list (app.py 125-130). -/
def EFFICIENCY_CURVES : List (String × Curve) :=
  [("IE1", ie1Curve), ("IE2", ie2Curve), ("IE3", ie3Curve), ("IE4", ie4Curve)]

/-- Table `MotorSystem.MOTOR_COSTS` ($ per kW, app.py 133-137).  Note: no IE1 entry. -/
def MOTOR_COSTS : List (String × ℚ) := [("IE2", 50), ("IE3", 65), ("IE4", 85)]

/-- The VFD savings curve local to `calculate_vfd_savings` (app.py 159-164). -/
def vfd_savings_curve : Curve := [(1/4, 40/100), (1/2, 25/100), (3/4, 10/100), (1, 0)]

/-- The interpolation `for` loop (app.py 147-151 and 170-175): scan the
consecutive anchor pairs; on the first interval containing the query,
return the linear interpolation; otherwise fall through. -/
def interpSegments : Curve → ℚ → Option ℚ
  | (x1, y1) :: (x2, y2) :: rest, q =>
      if x1 ≤ q ∧ q ≤ x2 then some (y1 + (y2 - y1) * (q - x1) / (x2 - x1))
      else interpSegments ((x2, y2) :: rest) q
  | _, _ => none

/-- Source expression `efficiencies[0]` : first anchor y of a curve. -/
def curveFirstY : Curve → ℚ
  | (_, y) :: _ => y
  | [] => 0

/-- Source expression `efficiencies[-1]` : last anchor y of a curve. -/
def curveLastY : Curve → ℚ
  | [(_, y)] => y
  | _ :: rest => curveLastY rest
  | [] => 0

/-- Full lookup: the loop, then the clamp fallback
`efficiencies[-1] if load_factor >= 1.0 else efficiencies[0]`
(app.py line 153 and 176-177). -/
def interpolateCurve (c : Curve) (q : ℚ) : ℚ :=
  (interpSegments c q).getD (if 1 ≤ q then curveLastY c else curveFirstY c)

/-- Method `MotorSystem.get_efficiency` (app.py 139-153): dictionary lookup with
IE2 fallback for an unknown class, then interpolation. -/
def get_efficiency (efficiency_class : String) (load_factor : ℚ) : ℚ :=
  interpolateCurve ((EFFICIENCY_CURVES.lookup efficiency_class).getD ie2Curve) load_factor

/-- The savings fraction interpolated inside `calculate_vfd_savings`
(app.py 166-177). -/
def vfdSavingsFrac (load_factor : ℚ) : ℚ :=
  interpolateCurve vfd_savings_curve load_factor

/-- The triple returned by `MotorSystem.calculate_vfd_savings`. -/
structure VfdOutcome where
  saved_energy : ℚ
  cost_savings : ℚ
  savings_pct : ℚ
  deriving Repr, DecidableEq

/-- Method `MotorSystem.calculate_vfd_savings` (app.py 156-187). -/
def calculate_vfd_savings (load_factor motor_power operating_hours electricity_cost : ℚ) :
    VfdOutcome :=
  let savings := vfdSavingsFrac load_factor
  let base_power := motor_power * load_factor
  let base_energy := base_power * operating_hours
  let saved_energy := base_energy * savings
  let cost_savings := saved_energy * electricity_cost
  ⟨saved_energy, cost_savings, savings * 100⟩

/-- Method `LightingSystem.calculate_lighting_energy` (app.py 200-203). -/
def calculate_lighting_energy (num_fixtures wattage_per_fixture operating_hours : ℚ) : ℚ :=
  num_fixtures * wattage_per_fixture * operating_hours / 1000

/-- Constant `LightingSystem.LIGHTING_TYPES[LED][cost_per_unit]` (app.py 197). -/
def LED_COST_PER_UNIT : ℚ := 15

/-- One row of `motors_data` (app.py 268-274). -/
structure Motor where
  rating : ℚ
  quantity : ℕ
  load_factor : ℚ
  current_class : String
  vfd_applicable : Bool
  deriving Repr, DecidableEq

/-- The local values computed by the motor-upgrade part of the simulation
loop body (app.py 379-392), one field per Python local. -/
structure MotorUpgradeEval where
  current_eff : ℚ
  current_power : ℚ
  current_energy : ℚ
  current_input : ℚ
  ie4_eff : ℚ
  ie4_input : ℚ
  energy_savings : ℚ
  cost_savings : ℚ
  upgrade_cost_raw : ℚ
  deriving Repr, DecidableEq

/-- Motor-upgrade arithmetic of the loop body (app.py 379-392). -/
def motorUpgradeEval (total_hours electricity_cost : ℚ) (m : Motor) : MotorUpgradeEval :=
  let current_eff := get_efficiency m.current_class m.load_factor
  let current_power := m.rating * m.load_factor
  let current_energy := current_power * total_hours * (m.quantity : ℚ)
  let current_input := current_energy / current_eff
  let ie4_eff := get_efficiency "IE4" m.load_factor
  let ie4_input := current_energy / ie4_eff
  let energy_savings := current_input - ie4_input
  let cost_savings := energy_savings * electricity_cost
  let upgrade_cost := m.rating * (m.quantity : ℚ) *
    ((MOTOR_COSTS.lookup "IE4").getD 0 -
      (MOTOR_COSTS.lookup m.current_class).getD ((MOTOR_COSTS.lookup "IE2").getD 0))
  ⟨current_eff, current_power, current_energy, current_input, ie4_eff, ie4_input,
    energy_savings, cost_savings, upgrade_cost⟩

/-- One entry of the motor-upgrades result list (app.py 394-403). -/
structure MotorUpgradeRecord where
  motor_id : ℕ
  rating : ℚ
  quantity : ℕ
  current_class : String
  energy_savings : ℚ
  cost_savings : ℚ
  upgrade_cost : ℚ
  payback_years : ℚ
  deriving Repr, DecidableEq

/-- Build of the motor-upgrade record (app.py 394-403), including the
minimum-cost floor and the 999 payback sentinel. -/
def evalMotorUpgrade (total_hours electricity_cost : ℚ) (i : ℕ) (m : Motor) :
    MotorUpgradeRecord :=
  let e := motorUpgradeEval total_hours electricity_cost m
  { motor_id := i + 1
    rating := m.rating
    quantity := m.quantity
    current_class := m.current_class
    energy_savings := e.energy_savings
    cost_savings := e.cost_savings
    upgrade_cost := max e.upgrade_cost_raw 100
    payback_years :=
      if e.cost_savings > 0 then max e.upgrade_cost_raw 100 / e.cost_savings else 999 }

/-- One entry of the VFD-savings result list (app.py 415-424). -/
structure VfdRecord where
  motor_id : ℕ
  rating : ℚ
  quantity : ℕ
  energy_savings : ℚ
  cost_savings : ℚ
  vfd_cost : ℚ
  payback_years : ℚ
  savings_pct : ℚ
  deriving Repr, DecidableEq

/-- Build of the VFD record (app.py 409-424).  The call site passes
`total_hours * quantity` as the operating-hours argument
(app.py 410-412). -/
def evalVfd (total_hours electricity_cost : ℚ) (i : ℕ) (m : Motor) : VfdRecord :=
  let o := calculate_vfd_savings m.load_factor m.rating
    (total_hours * (m.quantity : ℚ)) electricity_cost
  let vfd_cost := m.rating * (m.quantity : ℚ) * 100
  { motor_id := i + 1
    rating := m.rating
    quantity := m.quantity
    energy_savings := o.saved_energy
    cost_savings := o.cost_savings
    vfd_cost := vfd_cost
    payback_years := if o.cost_savings > 0 then vfd_cost / o.cost_savings else 999
    savings_pct := o.savings_pct }

/-- The lighting-retrofit result entry (app.py 440-447). -/
structure LightingRecord where
  current_energy : ℚ
  led_energy : ℚ
  energy_savings : ℚ
  cost_savings : ℚ
  retrofit_cost : ℚ
  payback_years : ℚ
  deriving Repr, DecidableEq

/-- Lighting retrofit arithmetic (app.py 430-447).  `lighting_hours` is the
`daily_hours * operating_days` product used at both call sites. -/
def evalLighting (num_fixtures wattage_per led_wattage lighting_hours electricity_cost : ℚ) :
    LightingRecord :=
  let current_energy := calculate_lighting_energy num_fixtures wattage_per lighting_hours
  let led_energy := calculate_lighting_energy num_fixtures led_wattage lighting_hours
  let energy_savings := current_energy - led_energy
  let cost_savings := energy_savings * electricity_cost
  let retrofit_cost := num_fixtures * LED_COST_PER_UNIT * 10
  { current_energy := current_energy
    led_energy := led_energy
    energy_savings := energy_savings
    cost_savings := cost_savings
    retrofit_cost := retrofit_cost
    payback_years := if cost_savings > 0 then retrofit_cost / cost_savings else 999 }

/-- The `results` dictionary of one simulation run (app.py 366-370). -/
structure SimResults where
  motor_upgrades : List MotorUpgradeRecord
  vfd_savings : List VfdRecord
  lighting_retrofit : LightingRecord
  deriving Repr, DecidableEq

/-- The full simulation pass of tab 3 (app.py 378-447): every motor group
gets a motor-upgrade record; the VFD list keeps only the groups with
`vfd_applicable`, with the original enumeration index. -/
def runSimulation (total_hours electricity_cost : ℚ) (motors : List Motor)
    (num_fixtures wattage_per led_wattage lighting_hours : ℚ) : SimResults :=
  { motor_upgrades := motors.enum.map fun p => evalMotorUpgrade total_hours electricity_cost p.1 p.2
    vfd_savings := motors.enum.filterMap fun p =>
      if p.2.vfd_applicable then some (evalVfd total_hours electricity_cost p.1 p.2) else none
    lighting_retrofit :=
      evalLighting num_fixtures wattage_per led_wattage lighting_hours electricity_cost }

/-- Aggregate `total_energy_savings` (app.py 453-455). -/
def total_energy_savings (r : SimResults) : ℚ :=
  (r.motor_upgrades.map (·.energy_savings)).sum +
    (r.vfd_savings.map (·.energy_savings)).sum + r.lighting_retrofit.energy_savings

/-- Aggregate `total_cost_savings` (app.py 462-464). -/
def total_cost_savings (r : SimResults) : ℚ :=
  (r.motor_upgrades.map (·.cost_savings)).sum +
    (r.vfd_savings.map (·.cost_savings)).sum + r.lighting_retrofit.cost_savings

/-- Aggregate `co2_reduction` (app.py 471). -/
def co2_reduction (r : SimResults) (carbon_factor : ℚ) : ℚ :=
  total_energy_savings r * carbon_factor / 1000

/-- One recommendation card (app.py 597-631), numeric fields only: the
description and money strings are formatting. -/
structure Recommendation where
  rtype : String
  motor_id : ℕ
  investment : ℚ
  annual_savings : ℚ
  payback_years : ℚ
  priority : String
  sort_key : ℚ
  deriving Repr, DecidableEq

/-- Shared shape of the three recommendation builds: priority High iff
payback at most 2, sort key 1/payback when payback is positive else 0
(app.py 603-604, 616-617, 629-630). -/
def mkRecommendation (rtype : String) (mid : ℕ) (inv sav payback : ℚ) : Recommendation :=
  ⟨rtype, mid, inv, sav, payback,
    if payback ≤ 2 then "High" else "Medium",
    if payback > 0 then 1 / payback else 0⟩

/-- The recommendation list before sorting (app.py 592-631): motor upgrades
with payback at most 5, then VFDs with payback at most 4, then the lighting
retrofit with payback at most 5, in that build order. -/
def buildRecommendations (r : SimResults) : List Recommendation :=
  (r.motor_upgrades.filterMap fun m =>
    if m.payback_years ≤ 5 then
      some (mkRecommendation "Motor Upgrade" m.motor_id m.upgrade_cost
        m.cost_savings m.payback_years)
    else none) ++
  (r.vfd_savings.filterMap fun v =>
    if v.payback_years ≤ 4 then
      some (mkRecommendation "VFD Installation" v.motor_id v.vfd_cost
        v.cost_savings v.payback_years)
    else none) ++
  (if r.lighting_retrofit.payback_years ≤ 5 then
    [mkRecommendation "Lighting Retrofit" 0 r.lighting_retrofit.retrofit_cost
      r.lighting_retrofit.cost_savings r.lighting_retrofit.payback_years]
  else [])

/-- The comparison of `recommendations.sort(key=..., reverse=True)`:
descending by sort key (app.py 634). -/
def recLe (a b : Recommendation) : Bool := decide (b.sort_key ≤ a.sort_key)

/-- The sorted recommendation list (app.py 634); Python list sort is
stable, modelled by a stable merge sort with the descending comparison. -/
def rankRecommendations (r : SimResults) : List Recommendation :=
  (buildRecommendations r).mergeSort recLe

/-- The five curves of the program: the four efficiency class curves and
the VFD savings curve. -/
def allCurves : List Curve := [ie1Curve, ie2Curve, ie3Curve, ie4Curve, vfd_savings_curve]

/-- First default Textile motor group (app.py line 210), the end-to-end
example group of the spec. -/
def textileMotor1 : Motor := ⟨15, 8, 3/4, "IE2", true⟩

/-- A motor group with a load factor outside (0, 1], used to probe the
(absent) validation of the simulation loop. -/
def badMotorGroup : Motor := ⟨15, 8, 3/2, "IE2", true⟩

/-! ## Helper lemmas -/

lemma ge_ie1 (lf : ℚ) : get_efficiency "IE1" lf = interpolateCurve ie1Curve lf := rfl

lemma ge_ie2 (lf : ℚ) : get_efficiency "IE2" lf = interpolateCurve ie2Curve lf := rfl

lemma ge_ie3 (lf : ℚ) : get_efficiency "IE3" lf = interpolateCurve ie3Curve lf := rfl

lemma ge_ie4 (lf : ℚ) : get_efficiency "IE4" lf = interpolateCurve ie4Curve lf := rfl

lemma cost_ie1 : MOTOR_COSTS.lookup "IE1" = none := rfl

lemma cost_ie2 : MOTOR_COSTS.lookup "IE2" = some 50 := rfl

lemma cost_ie3 : MOTOR_COSTS.lookup "IE3" = some 65 := rfl

lemma cost_ie4 : MOTOR_COSTS.lookup "IE4" = some 85 := rfl

/-- The scan loop on a four-point curve, written out. -/
lemma interpSegments_quad (y0 y1 y2 y3 x : ℚ) :
    interpSegments [(1/4, y0), (1/2, y1), (3/4, y2), (1, y3)] x =
      if 1/4 ≤ x ∧ x ≤ 1/2 then some (y0 + (y1 - y0) * (x - 1/4) / (1/2 - 1/4))
      else if 1/2 ≤ x ∧ x ≤ 3/4 then some (y1 + (y2 - y1) * (x - 1/2) / (3/4 - 1/2))
      else if 3/4 ≤ x ∧ x ≤ 1 then some (y2 + (y3 - y2) * (x - 3/4) / (1 - 3/4))
      else none := by
  simp only [interpSegments]

/-- Full lookup on a four-point curve with the code's anchor x values,
written out, segment formulas in the shape of the source. -/
lemma interpolateCurve_quad (y0 y1 y2 y3 x : ℚ) :
    interpolateCurve [(1/4, y0), (1/2, y1), (3/4, y2), (1, y3)] x =
      if 1/4 ≤ x ∧ x ≤ 1/2 then y0 + (y1 - y0) * (x - 1/4) / (1/2 - 1/4)
      else if 1/2 ≤ x ∧ x ≤ 3/4 then y1 + (y2 - y1) * (x - 1/2) / (3/4 - 1/2)
      else if 3/4 ≤ x ∧ x ≤ 1 then y2 + (y3 - y2) * (x - 3/4) / (1 - 3/4)
      else if 1 ≤ x then y3 else y0 := by
  rw [interpolateCurve, interpSegments_quad]
  split_ifs <;> simp [curveFirstY, curveLastY]

/-- Division-free disjoint-case form of the same lookup, convenient for
case analysis. -/
lemma interpolateCurve_cases (y0 y1 y2 y3 x : ℚ) :
    interpolateCurve [(1/4, y0), (1/2, y1), (3/4, y2), (1, y3)] x =
      if x < 1/4 then y0
      else if x ≤ 1/2 then y0 + (y1 - y0) * (4 * x - 1)
      else if x ≤ 3/4 then y1 + (y2 - y1) * (4 * x - 2)
      else if x ≤ 1 then y2 + (y3 - y2) * (4 * x - 3)
      else y3 := by
  rw [interpolateCurve_quad]
  rcases lt_or_le x (1/4) with h0 | h0
  · have c1 : ¬(1/4 ≤ x ∧ x ≤ 1/2) := by rintro ⟨a, b⟩; linarith
    have c2 : ¬(1/2 ≤ x ∧ x ≤ 3/4) := by rintro ⟨a, b⟩; linarith
    have c3 : ¬(3/4 ≤ x ∧ x ≤ 1) := by rintro ⟨a, b⟩; linarith
    have c4 : ¬((1:ℚ) ≤ x) := by linarith
    rw [if_neg c1, if_neg c2, if_neg c3, if_neg c4, if_pos h0]
  · rcases le_or_lt x (1/2) with h1 | h1
    · rw [if_pos ⟨h0, h1⟩, if_neg (not_lt.mpr h0), if_pos h1]
      field_simp
      ring
    · rcases le_or_lt x (3/4) with h2 | h2
      · have c1 : ¬(1/4 ≤ x ∧ x ≤ 1/2) := by rintro ⟨a, b⟩; linarith
        rw [if_neg c1, if_pos ⟨le_of_lt h1, h2⟩, if_neg (not_lt.mpr h0),
          if_neg (not_le.mpr h1), if_pos h2]
        field_simp
        ring
      · rcases le_or_lt x 1 with h3 | h3
        · have c1 : ¬(1/4 ≤ x ∧ x ≤ 1/2) := by rintro ⟨a, b⟩; linarith
          have c2 : ¬(1/2 ≤ x ∧ x ≤ 3/4) := by rintro ⟨a, b⟩; linarith
          rw [if_neg c1, if_neg c2, if_pos ⟨le_of_lt h2, h3⟩, if_neg (not_lt.mpr h0),
            if_neg (not_le.mpr h1), if_neg (not_le.mpr h2), if_pos h3]
          field_simp
          ring
        · have c1 : ¬(1/4 ≤ x ∧ x ≤ 1/2) := by rintro ⟨a, b⟩; linarith
          have c2 : ¬(1/2 ≤ x ∧ x ≤ 3/4) := by rintro ⟨a, b⟩; linarith
          have c3 : ¬(3/4 ≤ x ∧ x ≤ 1) := by rintro ⟨a, b⟩; linarith
          rw [if_neg c1, if_neg c2, if_neg c3, if_pos (by linarith : (1:ℚ) ≤ x),
            if_neg (not_lt.mpr h0), if_neg (not_le.mpr h1), if_neg (not_le.mpr h2),
            if_neg (not_le.mpr h3)]

/-- Conditional characterisation of the lookup on a four-point curve:
each anchor interval gives the spec interpolation formula, queries below
the first anchor clamp low, queries at or above the last clamp high. -/
lemma interp_quad_spec (y0 y1 y2 y3 x : ℚ) :
    (x < 1/4 → interpolateCurve [(1/4, y0), (1/2, y1), (3/4, y2), (1, y3)] x = y0) ∧
    (1/4 ≤ x → x ≤ 1/2 → interpolateCurve [(1/4, y0), (1/2, y1), (3/4, y2), (1, y3)] x =
      y0 + (y1 - y0) * (x - 1/4) / (1/2 - 1/4)) ∧
    (1/2 ≤ x → x ≤ 3/4 → interpolateCurve [(1/4, y0), (1/2, y1), (3/4, y2), (1, y3)] x =
      y1 + (y2 - y1) * (x - 1/2) / (3/4 - 1/2)) ∧
    (3/4 ≤ x → x ≤ 1 → interpolateCurve [(1/4, y0), (1/2, y1), (3/4, y2), (1, y3)] x =
      y2 + (y3 - y2) * (x - 3/4) / (1 - 3/4)) ∧
    (1 ≤ x → interpolateCurve [(1/4, y0), (1/2, y1), (3/4, y2), (1, y3)] x = y3) := by
  refine ⟨?_, ?_, ?_, ?_, ?_⟩
  · intro h
    rw [interpolateCurve_quad, if_neg (by rintro ⟨a, b⟩; linarith),
      if_neg (by rintro ⟨a, b⟩; linarith), if_neg (by rintro ⟨a, b⟩; linarith),
      if_neg (by intro a; linarith)]
  · intro h1 h2
    rw [interpolateCurve_quad, if_pos ⟨h1, h2⟩]
  · intro h1 h2
    rw [interpolateCurve_quad]
    by_cases hc : 1/4 ≤ x ∧ x ≤ 1/2
    · have hx : x = 1/2 := le_antisymm hc.2 h1
      subst hx
      rw [if_pos hc]
      field_simp
    · rw [if_neg hc, if_pos ⟨h1, h2⟩]
  · intro h1 h2
    rw [interpolateCurve_quad]
    have hc1 : ¬(1/4 ≤ x ∧ x ≤ 1/2) := by rintro ⟨a, b⟩; linarith
    by_cases hc2 : 1/2 ≤ x ∧ x ≤ 3/4
    · have hx : x = 3/4 := le_antisymm hc2.2 h1
      subst hx
      rw [if_neg hc1, if_pos hc2]
      field_simp
    · rw [if_neg hc1, if_neg hc2, if_pos ⟨h1, h2⟩]
  · intro h
    rw [interpolateCurve_quad]
    have hc1 : ¬(1/4 ≤ x ∧ x ≤ 1/2) := by rintro ⟨a, b⟩; linarith
    have hc2 : ¬(1/2 ≤ x ∧ x ≤ 3/4) := by rintro ⟨a, b⟩; linarith
    by_cases hc3 : 3/4 ≤ x ∧ x ≤ 1
    · have hx : x = 1 := le_antisymm hc3.2 h
      subst hx
      rw [if_neg hc1, if_neg hc2, if_pos hc3]
      field_simp
    · rw [if_neg hc1, if_neg hc2, if_neg hc3, if_pos h]

lemma interp_mono_ie1 : ∀ x y : ℚ, x ≤ y →
    interpolateCurve ie1Curve x ≤ interpolateCurve ie1Curve y := by
  intro x y hxy
  rw [ie1Curve, interpolateCurve_cases, interpolateCurve_cases]
  split_ifs <;> linarith

lemma interp_mono_ie2 : ∀ x y : ℚ, x ≤ y →
    interpolateCurve ie2Curve x ≤ interpolateCurve ie2Curve y := by
  intro x y hxy
  rw [ie2Curve, interpolateCurve_cases, interpolateCurve_cases]
  split_ifs <;> linarith

lemma interp_mono_ie3 : ∀ x y : ℚ, x ≤ y →
    interpolateCurve ie3Curve x ≤ interpolateCurve ie3Curve y := by
  intro x y hxy
  rw [ie3Curve, interpolateCurve_cases, interpolateCurve_cases]
  split_ifs <;> linarith

lemma interp_mono_ie4 : ∀ x y : ℚ, x ≤ y →
    interpolateCurve ie4Curve x ≤ interpolateCurve ie4Curve y := by
  intro x y hxy
  rw [ie4Curve, interpolateCurve_cases, interpolateCurve_cases]
  split_ifs <;> linarith

lemma interp_anti_vfd : ∀ x y : ℚ, x ≤ y →
    interpolateCurve vfd_savings_curve y ≤ interpolateCurve vfd_savings_curve x := by
  intro x y hxy
  rw [vfd_savings_curve, interpolateCurve_cases, interpolateCurve_cases]
  split_ifs <;> linarith

/-- Helper for the totals claim: a filterMap whose function is an
if-some-else-none guard is a filter followed by a map. -/
lemma filterMap_guard_eq_map_filter {α β : Type} (f : α → β) (c : α → Bool) (l : List α) :
    (l.filterMap fun a => if c a then some (f a) else none)
      = (l.filter c).map f := by
  induction l with
  | nil => rfl
  | cons a t ih =>
    by_cases h : c a
    · simp [List.filterMap_cons, List.filter_cons, h, ih]
    · simp [List.filterMap_cons, List.filter_cons, h, ih]

/-! ## Claims -/

/-- Claim C1: for the motor group with ratingKw 15, quantity 8, loadFactor
0.75 and currentClass IE2, at 4800 annual hours and 0.12 $/kWh, the
motor-upgrade evaluation gives currentEff = 0.90, ie4Eff = 0.95, shaft
energy 432000 kWh, current input energy 480000 kWh, IE4 input energy
8640000/19 (about 454736.84) kWh, energy savings 480000/19 (about
25263.16) kWh, cost savings 57600/19 (about 3031.58), upgrade cost
15 x 8 x (85 - 50) = 4200, and payback 133/96 (about 1.39) years, which is
at most 2 (hence priority High) and at most 5 (hence under the motor
ceiling). -/
theorem end_to_end_textile_motor_example :
    (motorUpgradeEval 4800 (12/100) textileMotor1).current_eff = 90/100 ∧
    (motorUpgradeEval 4800 (12/100) textileMotor1).ie4_eff = 95/100 ∧
    (motorUpgradeEval 4800 (12/100) textileMotor1).current_energy = 432000 ∧
    (motorUpgradeEval 4800 (12/100) textileMotor1).current_input = 480000 ∧
    (motorUpgradeEval 4800 (12/100) textileMotor1).ie4_input = 8640000/19 ∧
    |(motorUpgradeEval 4800 (12/100) textileMotor1).ie4_input - 45473684/100| < 1/100 ∧
    (motorUpgradeEval 4800 (12/100) textileMotor1).energy_savings = 480000/19 ∧
    |(motorUpgradeEval 4800 (12/100) textileMotor1).energy_savings - 2526316/100| < 1/100 ∧
    (motorUpgradeEval 4800 (12/100) textileMotor1).cost_savings = 57600/19 ∧
    |(motorUpgradeEval 4800 (12/100) textileMotor1).cost_savings - 303158/100| < 1/100 ∧
    (evalMotorUpgrade 4800 (12/100) 0 textileMotor1).upgrade_cost = 15 * 8 * (85 - 50) ∧
    (evalMotorUpgrade 4800 (12/100) 0 textileMotor1).payback_years = 133/96 ∧
    |(evalMotorUpgrade 4800 (12/100) 0 textileMotor1).payback_years - 139/100| < 1/100 ∧
    (evalMotorUpgrade 4800 (12/100) 0 textileMotor1).payback_years ≤ 2 ∧
    (mkRecommendation "Motor Upgrade" 1 4200 (57600/19)
      (evalMotorUpgrade 4800 (12/100) 0 textileMotor1).payback_years).priority = "High" ∧
    (evalMotorUpgrade 4800 (12/100) 0 textileMotor1).payback_years ≤ 5 := by
  norm_num [evalMotorUpgrade, motorUpgradeEval, textileMotor1, ge_ie2, ge_ie4, ie2Curve,
    ie4Curve, interpolateCurve_cases, cost_ie2, cost_ie4, mkRecommendation, abs_sub_lt_iff,
    abs_lt]

/-- Claim C2: in the VFD evaluation the quantity factor enters the
saved-energy computation exactly once — the call site pre-multiplies the
annual hours by quantity and the savings function multiplies by quantity
nowhere, so savedEnergy = ratingKw x loadFactor x annualHours x quantity x
savingsFraction(loadFactor); this matches the once-only quantity
convention of the motor-upgrade path, whose shaft energy is
ratingKw x loadFactor x annualHours x quantity. -/
theorem vfd_quantity_applied_once (total_hours electricity_cost : ℚ) (i : ℕ) (m : Motor) :
    (evalVfd total_hours electricity_cost i m).energy_savings
        = m.rating * m.load_factor * total_hours * (m.quantity : ℚ)
            * vfdSavingsFrac m.load_factor ∧
    (motorUpgradeEval total_hours electricity_cost m).current_energy
        = m.rating * m.load_factor * total_hours * (m.quantity : ℚ) := by
  constructor
  · simp only [evalVfd, calculate_vfd_savings]
    ring
  · simp only [motorUpgradeEval]

/-- Claim C3 (counterexample): the simulation loop performs no validation
at all.  A run whose only motor group has loadFactor 3/2 — outside (0,1] —
does not fail: it returns a full motor-upgrade record for that group, with
savings arithmetic performed (the interpolation clamps the load factor),
contradicting the claim that such a run raises InvalidMotorGroup before
any savings arithmetic and returns no results. -/
theorem invalid_group_still_evaluated :
    (runSimulation 4800 (12/100) [badMotorGroup] 200 40 16 4800).motor_upgrades
      = [evalMotorUpgrade 4800 (12/100) 0 badMotorGroup] ∧
    ¬ badMotorGroup.load_factor ≤ 1 ∧
    (evalMotorUpgrade 4800 (12/100) 0 badMotorGroup).energy_savings = 4500000/91 ∧
    (evalMotorUpgrade 4800 (12/100) 0 badMotorGroup).payback_years = 637/900 := by
  refine ⟨?_, by norm_num [badMotorGroup], ?_, ?_⟩
  · simp [runSimulation, List.enum, List.enumFrom]
  · norm_num [evalMotorUpgrade, motorUpgradeEval, badMotorGroup, ge_ie2, ge_ie4, ie2Curve,
      ie4Curve, interpolateCurve_cases, cost_ie2, cost_ie4]
  · norm_num [evalMotorUpgrade, motorUpgradeEval, badMotorGroup, ge_ie2, ge_ie4, ie2Curve,
      ie4Curve, interpolateCurve_cases, cost_ie2, cost_ie4]

/-- Claim C3 (amended): the evaluation never rejects a motor group — there
is no validation and no InvalidMotorGroup error; every group of the
inventory, whatever its loadFactor or ratingKw, produces exactly one
motor-upgrade record in the run results. -/
theorem no_validation_every_group_evaluated (total_hours electricity_cost : ℚ)
    (motors : List Motor) (nf wp lw lh : ℚ) :
    ((runSimulation total_hours electricity_cost motors nf wp lw lh).motor_upgrades).length
      = motors.length := by
  simp [runSimulation]

/-- Claim C4: for every curve of the program (the four motor efficiency
curves and the VFD savings curve, each with four anchors) and every query
x: on an anchor interval the lookup returns the linear interpolation
formula of the spec; below the smallest anchor it returns the smallest
anchor y; at or above the largest anchor it returns the largest anchor
y. -/
theorem curve_lookup_piecewise :
    ∀ c ∈ allCurves, ∀ x a0 b0 a1 b1 a2 b2 a3 b3 : ℚ,
      c = [(a0, b0), (a1, b1), (a2, b2), (a3, b3)] →
      ((x < a0 → interpolateCurve c x = b0) ∧
       (a0 ≤ x → x ≤ a1 → interpolateCurve c x = b0 + (b1 - b0) * (x - a0) / (a1 - a0)) ∧
       (a1 ≤ x → x ≤ a2 → interpolateCurve c x = b1 + (b2 - b1) * (x - a1) / (a2 - a1)) ∧
       (a2 ≤ x → x ≤ a3 → interpolateCurve c x = b2 + (b3 - b2) * (x - a2) / (a3 - a2)) ∧
       (a3 ≤ x → interpolateCurve c x = b3)) := by
  intro c hc x a0 b0 a1 b1 a2 b2 a3 b3 hce
  simp only [allCurves, List.mem_cons, List.not_mem_nil, or_false] at hc
  rcases hc with rfl | rfl | rfl | rfl | rfl
  · rw [ie1Curve] at hce
    simp only [List.cons.injEq, Prod.mk.injEq, and_true] at hce
    obtain ⟨⟨ha0, hb0⟩, ⟨ha1, hb1⟩, ⟨ha2, hb2⟩, ⟨ha3, hb3⟩⟩ := hce
    subst ha0; subst hb0; subst ha1; subst hb1; subst ha2; subst hb2; subst ha3; subst hb3
    rw [ie1Curve]
    exact interp_quad_spec _ _ _ _ x
  · rw [ie2Curve] at hce
    simp only [List.cons.injEq, Prod.mk.injEq, and_true] at hce
    obtain ⟨⟨ha0, hb0⟩, ⟨ha1, hb1⟩, ⟨ha2, hb2⟩, ⟨ha3, hb3⟩⟩ := hce
    subst ha0; subst hb0; subst ha1; subst hb1; subst ha2; subst hb2; subst ha3; subst hb3
    rw [ie2Curve]
    exact interp_quad_spec _ _ _ _ x
  · rw [ie3Curve] at hce
    simp only [List.cons.injEq, Prod.mk.injEq, and_true] at hce
    obtain ⟨⟨ha0, hb0⟩, ⟨ha1, hb1⟩, ⟨ha2, hb2⟩, ⟨ha3, hb3⟩⟩ := hce
    subst ha0; subst hb0; subst ha1; subst hb1; subst ha2; subst hb2; subst ha3; subst hb3
    rw [ie3Curve]
    exact interp_quad_spec _ _ _ _ x
  · rw [ie4Curve] at hce
    simp only [List.cons.injEq, Prod.mk.injEq, and_true] at hce
    obtain ⟨⟨ha0, hb0⟩, ⟨ha1, hb1⟩, ⟨ha2, hb2⟩, ⟨ha3, hb3⟩⟩ := hce
    subst ha0; subst hb0; subst ha1; subst hb1; subst ha2; subst hb2; subst ha3; subst hb3
    rw [ie4Curve]
    exact interp_quad_spec _ _ _ _ x
  · rw [vfd_savings_curve] at hce
    simp only [List.cons.injEq, Prod.mk.injEq, and_true] at hce
    obtain ⟨⟨ha0, hb0⟩, ⟨ha1, hb1⟩, ⟨ha2, hb2⟩, ⟨ha3, hb3⟩⟩ := hce
    subst ha0; subst hb0; subst ha1; subst hb1; subst ha2; subst hb2; subst ha3; subst hb3
    rw [vfd_savings_curve]
    exact interp_quad_spec _ _ _ _ x

/-- Witness for claim C4: the clamp-high branch on the VFD curve at query
2 gives the last anchor y, namely 0. -/
theorem curve_lookup_piecewise_witness : interpolateCurve vfd_savings_curve 2 = 0 :=
  (curve_lookup_piecewise vfd_savings_curve (by simp [allCurves]) 2 (1/4) (40/100) (1/2)
    (25/100) (3/4) (10/100) 1 0 rfl).2.2.2.2 (by norm_num)

/-- Claim C5: for all three measure types the payback equals the recorded
investment divided by the cost savings when the savings are positive, and
the sentinel 999 otherwise, and (for positive rating, quantity and fixture
count, as the input widgets enforce) the payback is always positive — no
division by zero and no negative payback. -/
theorem payback_sentinel_guard (total_hours electricity_cost nf wp lw lh : ℚ) (i : ℕ)
    (m : Motor) (hr : 0 < m.rating) (hq : 0 < m.quantity) (hnf : 0 < nf) :
    ((evalMotorUpgrade total_hours electricity_cost i m).cost_savings > 0 →
      (evalMotorUpgrade total_hours electricity_cost i m).payback_years
        = (evalMotorUpgrade total_hours electricity_cost i m).upgrade_cost
            / (evalMotorUpgrade total_hours electricity_cost i m).cost_savings) ∧
    (¬ (evalMotorUpgrade total_hours electricity_cost i m).cost_savings > 0 →
      (evalMotorUpgrade total_hours electricity_cost i m).payback_years = 999) ∧
    0 < (evalMotorUpgrade total_hours electricity_cost i m).payback_years ∧
    ((evalVfd total_hours electricity_cost i m).cost_savings > 0 →
      (evalVfd total_hours electricity_cost i m).payback_years
        = (evalVfd total_hours electricity_cost i m).vfd_cost
            / (evalVfd total_hours electricity_cost i m).cost_savings) ∧
    (¬ (evalVfd total_hours electricity_cost i m).cost_savings > 0 →
      (evalVfd total_hours electricity_cost i m).payback_years = 999) ∧
    0 < (evalVfd total_hours electricity_cost i m).payback_years ∧
    ((evalLighting nf wp lw lh electricity_cost).cost_savings > 0 →
      (evalLighting nf wp lw lh electricity_cost).payback_years
        = (evalLighting nf wp lw lh electricity_cost).retrofit_cost
            / (evalLighting nf wp lw lh electricity_cost).cost_savings) ∧
    (¬ (evalLighting nf wp lw lh electricity_cost).cost_savings > 0 →
      (evalLighting nf wp lw lh electricity_cost).payback_years = 999) ∧
    0 < (evalLighting nf wp lw lh electricity_cost).payback_years := by
  have hqq : (0:ℚ) < (m.quantity : ℚ) := by exact_mod_cast hq
  have hmc : (0:ℚ) < max (motorUpgradeEval total_hours electricity_cost m).upgrade_cost_raw 100 :=
    lt_of_lt_of_le (by norm_num) (le_max_right _ _)
  have hvc : (0:ℚ) < m.rating * (m.quantity : ℚ) * 100 := by positivity
  have hlc : (0:ℚ) < nf * LED_COST_PER_UNIT * 10 := by
    have : (0:ℚ) < LED_COST_PER_UNIT := by norm_num [LED_COST_PER_UNIT]
    positivity
  refine ⟨?_, ?_, ?_, ?_, ?_, ?_, ?_, ?_, ?_⟩
  · intro h
    simp only [evalMotorUpgrade] at h ⊢
    rw [if_pos h]
  · intro h
    simp only [evalMotorUpgrade] at h ⊢
    rw [if_neg h]
  · simp only [evalMotorUpgrade]
    split_ifs with h
    · exact div_pos hmc h
    · norm_num
  · intro h
    simp only [evalVfd] at h ⊢
    rw [if_pos h]
  · intro h
    simp only [evalVfd] at h ⊢
    rw [if_neg h]
  · simp only [evalVfd]
    split_ifs with h
    · exact div_pos hvc h
    · norm_num
  · intro h
    simp only [evalLighting] at h ⊢
    rw [if_pos h]
  · intro h
    simp only [evalLighting] at h ⊢
    rw [if_neg h]
  · simp only [evalLighting]
    split_ifs with h
    · exact div_pos hlc h
    · norm_num

/-- Witness for claim C5: the payback guard at the first default Textile
motor group and the default lighting configuration. -/
theorem payback_sentinel_guard_witness :
    (0:ℚ) < 15 ∧ 0 < 8 ∧ (0:ℚ) < 200 ∧
    0 < (evalVfd 4800 (12/100) 0 textileMotor1).payback_years ∧
    0 < (evalLighting 200 40 16 4800 (12/100)).payback_years :=
  ⟨by norm_num, by norm_num,
    by norm_num,
    (payback_sentinel_guard 4800 (12/100) 200 40 16 4800 0 textileMotor1
      (by norm_num [textileMotor1]) (by norm_num [textileMotor1])
      (by norm_num)).2.2.2.2.2.1,
    (payback_sentinel_guard 4800 (12/100) 200 40 16 4800 0 textileMotor1
      (by norm_num [textileMotor1]) (by norm_num [textileMotor1])
      (by norm_num)).2.2.2.2.2.2.2.2⟩

/-- Claim C6: every ranked recommendation respects its category payback
ceiling (5 years for motor upgrades, 4 for VFD, 5 for lighting); the
ranked list is pairwise non-increasing in the rank key; the sort is
stable with respect to the build order (motor upgrades, then VFDs, then
lighting, each in input order): any build-order pair whose keys are
already descending-or-tied keeps its order in the output; and when
nothing meets its ceiling the result is the empty list, not an error. -/
theorem ranker_spec (r : SimResults) :
    (∀ rec ∈ rankRecommendations r,
        (rec.rtype = "Motor Upgrade" → rec.payback_years ≤ 5) ∧
        (rec.rtype = "VFD Installation" → rec.payback_years ≤ 4) ∧
        (rec.rtype = "Lighting Retrofit" → rec.payback_years ≤ 5)) ∧
    List.Pairwise (fun a b => b.sort_key ≤ a.sort_key) (rankRecommendations r) ∧
    (∀ a b : Recommendation, List.Sublist [a, b] (buildRecommendations r) →
        b.sort_key ≤ a.sort_key → List.Sublist [a, b] (rankRecommendations r)) ∧
    ((∀ mu ∈ r.motor_upgrades, ¬ mu.payback_years ≤ 5) →
      (∀ v ∈ r.vfd_savings, ¬ v.payback_years ≤ 4) →
      ¬ r.lighting_retrofit.payback_years ≤ 5 →
      rankRecommendations r = []) := by
  have htrans : ∀ a b c : Recommendation, recLe a b → recLe b c → recLe a c := by
    intro a b c
    simp only [recLe, decide_eq_true_eq]
    exact fun h1 h2 => le_trans h2 h1
  have htotal : ∀ a b : Recommendation, recLe a b || recLe b a := by
    intro a b
    simp only [recLe, Bool.or_eq_true, decide_eq_true_eq]
    exact le_total _ _
  refine ⟨?_, ?_, ?_, ?_⟩
  · intro rec hrec
    rw [rankRecommendations, List.mem_mergeSort, buildRecommendations] at hrec
    simp only [List.mem_append, List.mem_filterMap] at hrec
    rcases hrec with (⟨mu, hmu, hsome⟩ | ⟨v, hv, hsome⟩) | hlight
    · split_ifs at hsome with h
      · cases hsome
        simp only [mkRecommendation]
        exact ⟨fun _ => h, fun hx => absurd hx (by decide), fun hx => absurd hx (by decide)⟩
    · split_ifs at hsome with h
      · cases hsome
        simp only [mkRecommendation]
        exact ⟨fun hx => absurd hx (by decide), fun _ => h, fun hx => absurd hx (by decide)⟩
    · split_ifs at hlight with h
      · simp only [List.mem_singleton] at hlight
        subst hlight
        simp only [mkRecommendation]
        exact ⟨fun hx => absurd hx (by decide), fun hx => absurd hx (by decide), fun _ => h⟩
      · simp at hlight
  · rw [rankRecommendations]
    exact (List.sorted_mergeSort htrans htotal (buildRecommendations r)).imp
      (fun hab => by simpa [recLe] using hab)
  · intro a b hsub hkey
    rw [rankRecommendations]
    exact List.pair_sublist_mergeSort htrans htotal (by simpa [recLe] using hkey) hsub
  · intro h1 h2 h3
    have hb : buildRecommendations r = [] := by
      rw [buildRecommendations]
      simp only [List.append_eq_nil]
      refine ⟨⟨?_, ?_⟩, ?_⟩
      · exact List.filterMap_eq_nil_iff.mpr fun mu hmu => if_neg (h1 mu hmu)
      · exact List.filterMap_eq_nil_iff.mpr fun v hv => if_neg (h2 v hv)
      · exact if_neg h3
    rw [rankRecommendations, hb]
    exact List.mergeSort_nil

/-- Witness for claim C6: a run with no motors and the default lighting
configuration (payback about 10.85 years, above the 5-year ceiling)
yields the empty recommendation list. -/
theorem ranker_spec_witness :
    rankRecommendations (runSimulation 4800 (12/100) [] 200 40 16 4800) = [] :=
  (ranker_spec _).2.2.2 (by simp [runSimulation])
    (by simp [runSimulation])
    (by norm_num [runSimulation, evalLighting, calculate_lighting_energy, LED_COST_PER_UNIT])

/-- Claim C7: the aggregate totals of a run equal the exact sums of the
per-item fields over the motor-upgrade results, the VFD results, and the
lighting result; the CO2 reduction is the energy total times the carbon
factor divided by 1000; and, through the full pipeline, the energy total
decomposes into per-group motor-upgrade savings, per-applicable-group VFD
savings, and the lighting savings. -/
theorem totals_are_sums (r : SimResults) (carbon_factor : ℚ)
    (total_hours electricity_cost : ℚ) (motors : List Motor) (nf wp lw lh : ℚ) :
    total_energy_savings r
      = (r.motor_upgrades.map (fun mu => mu.energy_savings)).sum
        + (r.vfd_savings.map (fun v => v.energy_savings)).sum
        + r.lighting_retrofit.energy_savings ∧
    total_cost_savings r
      = (r.motor_upgrades.map (fun mu => mu.cost_savings)).sum
        + (r.vfd_savings.map (fun v => v.cost_savings)).sum
        + r.lighting_retrofit.cost_savings ∧
    co2_reduction r carbon_factor = total_energy_savings r * carbon_factor / 1000 ∧
    total_energy_savings (runSimulation total_hours electricity_cost motors nf wp lw lh)
      = (motors.enum.map fun p =>
          (evalMotorUpgrade total_hours electricity_cost p.1 p.2).energy_savings).sum
        + ((motors.enum.filter fun p => p.2.vfd_applicable).map fun p =>
            (evalVfd total_hours electricity_cost p.1 p.2).energy_savings).sum
        + (evalLighting nf wp lw lh electricity_cost).energy_savings := by
  refine ⟨rfl, rfl, rfl, ?_⟩
  rw [total_energy_savings, runSimulation]
  rw [filterMap_guard_eq_map_filter (fun p => evalVfd total_hours electricity_cost p.1 p.2)
    (fun p => p.2.vfd_applicable) motors.enum]
  simp only [List.map_map]
  rfl

/-- Claim C8: at every anchor load factor of every curve, the lookup
returns exactly that anchor y value, with no interpolation drift. -/
theorem anchor_lookup_exact :
    get_efficiency "IE1" (1/4) = 78/100 ∧ get_efficiency "IE1" (1/2) = 85/100 ∧
    get_efficiency "IE1" (3/4) = 88/100 ∧ get_efficiency "IE1" 1 = 89/100 ∧
    get_efficiency "IE2" (1/4) = 82/100 ∧ get_efficiency "IE2" (1/2) = 88/100 ∧
    get_efficiency "IE2" (3/4) = 90/100 ∧ get_efficiency "IE2" 1 = 91/100 ∧
    get_efficiency "IE3" (1/4) = 85/100 ∧ get_efficiency "IE3" (1/2) = 90/100 ∧
    get_efficiency "IE3" (3/4) = 92/100 ∧ get_efficiency "IE3" 1 = 93/100 ∧
    get_efficiency "IE4" (1/4) = 88/100 ∧ get_efficiency "IE4" (1/2) = 93/100 ∧
    get_efficiency "IE4" (3/4) = 95/100 ∧ get_efficiency "IE4" 1 = 96/100 ∧
    vfdSavingsFrac (1/4) = 40/100 ∧ vfdSavingsFrac (1/2) = 25/100 ∧
    vfdSavingsFrac (3/4) = 10/100 ∧ vfdSavingsFrac 1 = 0 := by
  simp only [ge_ie1, ge_ie2, ge_ie3, ge_ie4, vfdSavingsFrac, ie1Curve, ie2Curve, ie3Curve,
    ie4Curve, vfd_savings_curve, interpolateCurve_cases]
  norm_num

/-- Claim C9: each efficiency class lookup is non-decreasing in the load
factor (the anchor efficiencies are non-decreasing) and the VFD savings
fraction is non-increasing in the load factor (the anchor fractions are
non-increasing), clamped regions included. -/
theorem curve_monotonicity :
    (∀ cls ∈ ["IE1", "IE2", "IE3", "IE4"], ∀ x y : ℚ, x ≤ y →
        get_efficiency cls x ≤ get_efficiency cls y) ∧
    (∀ x y : ℚ, x ≤ y → vfdSavingsFrac y ≤ vfdSavingsFrac x) := by
  constructor
  · intro cls hcls x y hxy
    simp only [List.mem_cons, List.not_mem_nil, or_false] at hcls
    rcases hcls with rfl | rfl | rfl | rfl
    · rw [ge_ie1, ge_ie1]; exact interp_mono_ie1 x y hxy
    · rw [ge_ie2, ge_ie2]; exact interp_mono_ie2 x y hxy
    · rw [ge_ie3, ge_ie3]; exact interp_mono_ie3 x y hxy
    · rw [ge_ie4, ge_ie4]; exact interp_mono_ie4 x y hxy
  · intro x y hxy
    exact interp_anti_vfd x y hxy

/-- Witness for claim C9: monotonicity of the IE3 curve and antitonicity
of the VFD curve between load factors 0.3 and 0.9. -/
theorem curve_monotonicity_witness :
    get_efficiency "IE3" (3/10) ≤ get_efficiency "IE3" (9/10) ∧
    vfdSavingsFrac (9/10) ≤ vfdSavingsFrac (3/10) :=
  ⟨curve_monotonicity.1 "IE3" (by simp) (3/10) (9/10) (by norm_num),
   curve_monotonicity.2 (3/10) (9/10) (by norm_num)⟩

/-- Claim C10: the unit-cost table has no IE1 entry, so a motor group of
class IE1 takes the IE2 fallback 50 $/kW: its pre-floor upgrade cost is
ratingKw x quantity x (85 - 50), floored at 100 — identical to the
upgrade cost of an IE2 group of the same rating and quantity, even though
the IE1 efficiency curve differs from the IE2 one. -/
theorem ie1_cost_fallback (rating : ℚ) (qty : ℕ) (lf : ℚ) (vfd : Bool)
    (total_hours electricity_cost : ℚ) (i : ℕ) :
    MOTOR_COSTS.lookup "IE1" = none ∧
    (evalMotorUpgrade total_hours electricity_cost i ⟨rating, qty, lf, "IE1", vfd⟩).upgrade_cost
      = max (rating * (qty : ℚ) * (85 - 50)) 100 ∧
    (evalMotorUpgrade total_hours electricity_cost i ⟨rating, qty, lf, "IE1", vfd⟩).upgrade_cost
      = (evalMotorUpgrade total_hours electricity_cost i
          ⟨rating, qty, lf, "IE2", vfd⟩).upgrade_cost ∧
    get_efficiency "IE1" (3/4) ≠ get_efficiency "IE2" (3/4) := by
  refine ⟨rfl, ?_, ?_, ?_⟩
  · simp only [evalMotorUpgrade, motorUpgradeEval, cost_ie1, cost_ie2, cost_ie4,
      Option.getD_some, Option.getD_none]
  · simp only [evalMotorUpgrade, motorUpgradeEval, cost_ie1, cost_ie2, cost_ie4,
      Option.getD_some, Option.getD_none]
  · simp only [ge_ie1, ge_ie2, ie1Curve, ie2Curve, interpolateCurve_cases]
    norm_num

end Retrofit
